import Mathlib

/-!
Shallow embedding of the esports tournament tracker backend
(src/backend/main.py, src/backend/models.py,
src/backend/services/pandascore.py) and proofs about it.

JSON payloads are modelled by the inductive JVal, with Python dicts as
association lists in insertion order and Python ints and floats kept apart.
Remote HTTP traffic is modelled by passing each upstream response as an
explicit argument. Database sessions are modelled by explicit state passing:
a handler receives the committed table and returns its response together
with the committed table after the request.
-/

inductive JVal where
  | null
  | bool (b : Bool)
  | num (n : Int)
  | float (q : Rat)
  | str (s : String)
  | arr (xs : List JVal)
  | obj (fs : List (String × JVal))

abbrev PyDict := List (String × JVal)

/-- Python lookup d[k]: the value of the first binding of the key. -/
def getKey : PyDict → String → Option JVal
  | [], _ => none
  | (k, v) :: fs, key => if k = key then some v else getKey fs key

/-- Python assignment d[k] = v: overwrite the binding in place when the key
exists, append it otherwise. -/
def setKey : PyDict → String → JVal → PyDict
  | [], key, val => [(key, val)]
  | (k, v) :: fs, key, val =>
    if k = key then (k, val) :: fs else (k, v) :: setKey fs key val

/-- Python membership test of a key in a dict. -/
def hasKey (fs : PyDict) (key : String) : Bool := (getKey fs key).isSome

/-- Python d.get(key, default) on a dict. -/
def dictGetD (fs : PyDict) (key : String) (d : JVal) : JVal := (getKey fs key).getD d

/-- Python v.get(key, default) where v is expected to be a dict. Python
raises AttributeError on a non-dict; this total variant answers the default
there, and is only applied where the source guards the shape or a theorem
hypothesis keeps the value a dict. -/
def attrGetD (v : JVal) (key : String) (d : JVal) : JVal :=
  match v with
  | .obj fs => dictGetD fs key d
  | _ => d

/-- Python v.get(key) with the AttributeError made explicit: only dicts have
the attribute. -/
def pyGetAttr (v : JVal) (key : String) : Except String JVal :=
  match v with
  | .obj _ => .ok (attrGetD v key .null)
  | .arr _ => .error "AttributeError: list object has no attribute get"
  | _ => .error "AttributeError: object has no attribute get"

/-- Python truthiness of a JSON value: None, False, 0, 0.0, the empty
string, the empty list and the empty dict are falsy. -/
def pyFalsy : JVal → Bool
  | .null => true
  | .bool b => !b
  | .num n => n == 0
  | .float q => q == 0
  | .str s => s == ""
  | .arr xs => xs.isEmpty
  | .obj fs => fs.isEmpty

/-- Python equality on JSON values: structural, with an int equal to the
float of the same rational value, as Python compares int and float. Dicts
are compared binding by binding in order (the payload dicts compared by the
code are scalars, where this agrees with Python ==). -/
def pyEq : JVal → JVal → Bool
  | .null, .null => true
  | .bool a, .bool b => a == b
  | .num a, .num b => a == b
  | .float a, .float b => a == b
  | .num a, .float b => (a : Rat) == b
  | .float a, .num b => a == (b : Rat)
  | .str a, .str b => a == b
  | .arr [], .arr [] => true
  | .arr (x :: xs), .arr (y :: ys) => pyEq x y && pyEq (.arr xs) (.arr ys)
  | .obj [], .obj [] => true
  | .obj ((k, v) :: fs), .obj ((l, w) :: gs) =>
    k == l && pyEq v w && pyEq (.obj fs) (.obj gs)
  | _, _ => false

/-- Python comparison of a value against a string literal, as in
match_data.get("status") == "finished". -/
def isStrVal (v : JVal) (s : String) : Bool :=
  match v with
  | .str t => t == s
  | _ => false

/-- Python iteration over a value expected to be a JSON list. Python raises
TypeError on a non-list; call sites stay on list values. -/
def asList : JVal → List JVal
  | .arr xs => xs
  | _ => []

namespace PandaScoreAPI

/-- SUPPORTED_GAMES of pandascore.py lines 11-14, in declaration order. -/
def SUPPORTED_GAMES : List (String × String) :=
  [("lol", "league-of-legends"), ("valorant", "valorant")]

/-- Lookup SUPPORTED_GAMES[game]; none when game is not a key. -/
def supportedSlug (g : String) : Option String :=
  (SUPPORTED_GAMES.find? (fun p => p.1 == g)).map (fun p => p.2)

/-- The joined key list of the error messages, ", ".join(SUPPORTED_GAMES). -/
def supportedKeysJoined : String :=
  String.intercalate ", " (SUPPORTED_GAMES.map (fun p => p.1))

/-- The ValueError and HTTPException message of pandascore.py lines 31, 102
and main.py line 79. -/
def unsupportedGameMsg : String :=
  "Unsupported game. Supported games are: " ++ supportedKeysJoined

/-- Lines 56-57 of pandascore.py: videogame = tournament.get("videogame", {})
and its slug when videogame is a dict holding a string slug. Every other
shape (missing key, non-dict videogame, missing or non-string slug) compares
unequal to each supported slug in Python, exactly as none does here. -/
def slugOf (t : PyDict) : Option String :=
  match getKey t "videogame" with
  | some (.obj vg) =>
    match getKey vg "slug" with
    | some (.str s) => some s
    | _ => none
  | _ => none

/-- Lines 59-62 of pandascore.py: a record is dropped when a truthy supported
game filter is given and the record slug differs from SUPPORTED_GAMES[game]. -/
def skipRecord (game : Option String) (t : PyDict) : Bool :=
  match game with
  | none => false
  | some g =>
    if g == "" then false
    else
      match supportedSlug g with
      | some slug => !(slugOf t == some slug)
      | none => false

/-- Lines 68-72 of pandascore.py: the league_info block. -/
def leagueInfo (lg : JVal) : JVal :=
  .obj [("name", attrGetD lg "name" .null),
        ("image_url", attrGetD lg "image_url" .null),
        ("region", attrGetD lg "region" .null)]

/-- Lines 76-79 of pandascore.py: the series_info block. -/
def seriesInfo (sr : JVal) : JVal :=
  .obj [("name", attrGetD sr "name" .null),
        ("season", attrGetD sr "season" .null)]

/-- Lines 83-87 of pandascore.py: the lol game_details block. -/
def gameDetailsLol (t : PyDict) : JVal :=
  .obj [("patch_version", dictGetD t "patch_version" .null),
        ("tournament_type", dictGetD t "tournament_type" (.str "Unknown")),
        ("region", dictGetD t "region" (.str "International"))]

/-- Lines 89-93 of pandascore.py: the valorant game_details block. -/
def gameDetailsValorant (t : PyDict) : JVal :=
  .obj [("patch", dictGetD t "patch" (.str "Unknown")),
        ("series_type", dictGetD t "serie_type" (.str "Unknown")),
        ("region", dictGetD t "region" (.str "International"))]

/-- Lines 66-72 of pandascore.py: attach league_info when a league key is
present; t is the raw record read from, e the enhanced record written to. -/
def addLeagueInfo (t e : PyDict) : PyDict :=
  if hasKey t "league" then
    setKey e "league_info" (leagueInfo (dictGetD t "league" .null))
  else e

/-- Lines 74-79 of pandascore.py. -/
def addSeriesInfo (t e : PyDict) : PyDict :=
  if hasKey t "series" then
    setKey e "series_info" (seriesInfo (dictGetD t "series" .null))
  else e

/-- Lines 81-93 of pandascore.py. -/
def addGameDetails (game : Option String) (t e : PyDict) : PyDict :=
  if game == some "lol" then setKey e "game_details" (gameDetailsLol t)
  else if game == some "valorant" then setKey e "game_details" (gameDetailsValorant t)
  else e

/-- Lines 64-93 of pandascore.py: enhanced_tournament = tournament.copy()
followed by the three optional enrichment assignments. -/
def enhanceTournament (game : Option String) (t : PyDict) : PyDict :=
  addGameDetails game t (addSeriesInfo t (addLeagueInfo t t))

/-- PandaScoreAPI.get_tournaments (pandascore.py lines 26-97) from the parsed
upstream response body onward. Endpoint and query construction (lines 33-51)
only shape the outbound request and carry no record logic; the loop of lines
54-95 — skip on slug mismatch, else enhance and keep, in order — is modelled
exactly. The ValueError of lines 30-31 cannot fire from the tournaments
route, which validates the game before calling here. -/
def get_tournaments (game : Option String) (raw : List PyDict) : List PyDict :=
  match raw with
  | [] => []
  | t :: ts =>
    if skipRecord game t then get_tournaments game ts
    else enhanceTournament game t :: get_tournaments game ts

/-- Lines 123-131 of pandascore.py: the roster entry of one player dict. -/
def rosterEntry (p : JVal) : JVal :=
  .obj [("name", attrGetD p "name" .null),
        ("role", attrGetD p "role" .null),
        ("hometown", attrGetD p "hometown" .null),
        ("image_url", attrGetD p "image_url" .null)]

/-- Lines 121-131 of pandascore.py. -/
def addRoster (t e : PyDict) : PyDict :=
  if hasKey t "players" then
    setKey e "roster" (.arr ((asList (dictGetD t "players" .null)).map rosterEntry))
  else e

/-- PandaScoreAPI._calculate_win_rate (pandascore.py lines 235-242): 0.0 for
an empty match list, else wins divided by the match count times 100, where a
match counts as a win when its winner_id value (None when the key is absent)
compares equal to team_id. Python float division is modelled by exact
rational arithmetic. -/
def calculate_win_rate (ms : List PyDict) (team_id : JVal) : Rat :=
  if ms.isEmpty then 0
  else
    ((ms.countP (fun m => pyEq (dictGetD m "winner_id" .null) team_id) : Rat)
      / (ms.length : Rat)) * 100

/-- Lines 133-142 of pandascore.py: the per-team secondary matches request
for game lol. recentMatches carries that request: some parsed body when
matches_response.ok, none otherwise. The win rate is computed against the
team id value (a missing id key would raise KeyError in Python before this
point; witnesses use records carrying id). -/
def addRecentPerformance (game : Option String) (recentMatches : Option (List PyDict))
    (t e : PyDict) : PyDict :=
  if game == some "lol" then
    match recentMatches with
    | some ms =>
      setKey e "recent_performance"
        (.obj [("matches", .arr (ms.map JVal.obj)),
               ("win_rate", .float (calculate_win_rate ms (dictGetD t "id" .null)))])
    | none => e
  else e

/-- Lines 117-144 of pandascore.py: the enriched record of one raw team
record, enhanced_team = team.copy() plus roster and recent_performance. -/
def enhanceTeam (game : Option String) (recentMatches : Option (List PyDict))
    (t : PyDict) : PyDict :=
  addRecentPerformance game recentMatches t (addRoster t t)

/-- An upstream HTTP response as requests sees it: status code and parsed
JSON body. -/
structure HttpResp where
  status : Nat
  body : JVal

/-- response.raise_for_status(): statuses 400 and above raise HTTPError. -/
def raiseForStatus (status : Nat) : Except String Unit :=
  if 400 ≤ status then .error ("HTTPError " ++ toString status) else .ok ()

/-- PandaScoreAPI.get_match (pandascore.py lines 190-195): raise for a
non-success status, else the parsed body. -/
def get_match (r : HttpResp) : Except String JVal :=
  match raiseForStatus r.status with
  | .error e => .error e
  | .ok _ => .ok r.body

/-- An upstream response of the /matches list endpoint: the parsed body is a
JSON array of match dicts. -/
structure HttpListResp where
  status : Nat
  body : List PyDict

/-- Lines 219-229 of pandascore.py: the normalized shape of one opponent
entry. -/
def normalizeOpponent (o : JVal) : JVal :=
  .obj [("opponent",
    .obj [("id", attrGetD (attrGetD o "opponent" (.obj [])) "id" .null),
          ("name", attrGetD (attrGetD o "opponent" (.obj [])) "name" .null),
          ("image_url", attrGetD (attrGetD o "opponent" (.obj [])) "image_url" .null),
          ("acronym", attrGetD (attrGetD o "opponent" (.obj [])) "acronym" .null)])]

/-- Lines 212-231 of pandascore.py: one enhanced match record. -/
def enhanceMatch (m : PyDict) : PyDict :=
  if hasKey m "opponents" then
    setKey m "opponents" (.arr ((asList (dictGetD m "opponents" .null)).map normalizeOpponent))
  else m

/-- PandaScoreAPI.get_matches (pandascore.py lines 197-233) from the parsed
upstream response onward: raise for a non-success status, else every match
enhanced in order (the opponents list rewritten to the fixed shape of lines
219-229 when present). -/
def get_matches (r : HttpListResp) : Except String (List PyDict) :=
  match raiseForStatus r.status with
  | .error e => .error e
  | .ok _ => .ok (r.body.map enhanceMatch)

end PandaScoreAPI

/-- models.Tournament columns (models.py lines 8-18) other than the surrogate
primary key; datetime columns are abstracted to their normalized ISO strings
(None kept as none). -/
structure TournamentFields where
  external_id : String
  name : String
  game : String
  start_date : Option String
  end_date : Option String
  status : String
  prize_pool : String
deriving DecidableEq

/-- One persisted tournaments row: autoincrement primary key plus columns. -/
structure TournamentRow where
  rowid : Nat
  fields : TournamentFields
deriving DecidableEq

/-- models.Team columns (models.py lines 21-29) other than the surrogate
primary key and the rating default. -/
structure TeamFields where
  external_id : String
  name : String
  acronym : String
  image_url : String
  game : String
deriving DecidableEq

/-- One persisted teams row: autoincrement primary key, columns, and the
rating column whose default is 1500 (models.py line 30). -/
structure TeamRow where
  rowid : Nat
  fields : TeamFields
  rating : Rat
deriving DecidableEq

/-- The external_id filter of main.py lines 105-107. -/
def tourKey (e : String) (r : TournamentRow) : Bool := r.fields.external_id == e

/-- Replace the first element satisfying p in place: the session holds the
matched row and the setattr loop overwrites it where it sits. -/
def updateFirst (p : α → Bool) (f : α → α) : List α → List α
  | [] => []
  | x :: xs => if p x then f x :: xs else x :: updateFirst p f xs

/-- main.py lines 104-117: query the first row carrying the record
external_id; when found, overwrite every column of that row (the setattr
loop of lines 111-112 over tournament_dict, whose keys are exactly the
TournamentFields columns), else construct and add a new row. The session
query sees pending rows of the same batch (autoflush), so the staged table
is queried. -/
def upsertTournament (db : List TournamentRow) (d : TournamentFields) : List TournamentRow :=
  match db.find? (tourKey d.external_id) with
  | some _ => updateFirst (tourKey d.external_id) (fun r => { r with fields := d }) db
  | none => db ++ [{ rowid := db.length, fields := d }]

/-- main.py line 163, db.merge(team): Session.merge keys on the primary key
of the given instance. The Team built on lines 156-162 never sets id, so
merge finds no persistent identity and stages a brand new row (rating at its
1500 default); it does not reconcile by external_id. -/
def mergeTeam (db : List TeamRow) (t : TeamFields) : List TeamRow :=
  db ++ [{ rowid := db.length, fields := t, rating := 1500 }]

/-- Pairwise distinctness of a string list, as the UNIQUE constraint on
external_id (models.py lines 12 and 25) checks the table at commit. -/
def allDistinct : List String → Bool
  | [] => true
  | x :: xs => !(xs.contains x) && allDistinct xs

/-- One HTTP response of this service: status code, error detail (the
HTTPException detail, empty on success) and success body. -/
structure HResp where
  status : Nat
  detail : String
  body : JVal

def mkErr (status : Nat) (detail : String) : HResp := ⟨status, detail, .null⟩

def mkOk (body : JVal) : HResp := ⟨200, "", body⟩

namespace Backend

open PandaScoreAPI

/-- main.py line 76 and pandascore.py lines 30 and 101: a truthy game
argument that is no SUPPORTED_GAMES key is invalid (None and the empty
string are falsy and pass through unfiltered). -/
def gameInvalid (game : Option String) : Bool :=
  match game with
  | none => false
  | some g => !(g == "") && (supportedSlug g).isNone

/-- The /tournaments handler (main.py lines 66-142) from the processed
records onward: recs are the tournament_dict values built on lines 88-102
from the fetched payload, in fetch order. An invalid game answers 400 before
anything else (lines 76-80). commitOk tells whether the db.commit() of line
123 succeeds; on failure the session is rolled back, the committed table is
unchanged and the caller gets the 500 of lines 127-130. The success body
(the enriched fetch payload of line 132) is not inspected by any claim and
is abstracted to null. -/
def get_tournaments (game : Option String) (commitOk : Bool)
    (recs : List TournamentFields) (db : List TournamentRow) :
    HResp × List TournamentRow :=
  if gameInvalid game then
    (mkErr 400 unsupportedGameMsg, db)
  else
    let staged := recs.foldl upsertTournament db
    if commitOk then (mkOk .null, staged)
    else (mkErr 500 "Failed to save tournaments to database", db)

/-- The /teams handler (main.py lines 144-174) from the parsed team records
onward: recs carries the Team column values built on lines 156-162, in fetch
order. The handler itself never validates game: a truthy unsupported value
raises ValueError inside PandaScoreAPI.get_teams (pandascore.py lines
101-102) and the blanket except of lines 169-174 turns it into a 500 whose
detail embeds str(e). The single db.commit() of line 166 succeeds when the
oracle commitOk holds and the staged table satisfies the UNIQUE constraint
on external_id; otherwise the batch is rolled back and the same blanket
except answers 500. -/
def get_teams (game : Option String) (commitOk : Bool)
    (recs : List TeamFields) (db : List TeamRow) : HResp × List TeamRow :=
  if gameInvalid game then
    (mkErr 500 ("Failed to fetch teams: " ++ unsupportedGameMsg), db)
  else
    let staged := recs.foldl mergeTeam db
    if commitOk && allDistinct (staged.map (fun r => r.fields.external_id)) then
      (mkOk .null, staged)
    else
      (mkErr 500 "Failed to fetch teams: UNIQUE constraint failed: teams.external_id", db)

/-- The GET /predictions/{match_id} handler (main.py lines 176-209). Line 183
calls pandascore.get_matches(match_id) — the list endpoint, match_id landing
in its tournament_id filter — so match_data is a Python list. An empty list
is falsy and answers the 404 of lines 185-189. On a non-empty list the
response expression of lines 193-201 evaluates match_data.get("opponents",
[]), a list has no attribute get, and the blanket except of lines 205-209
answers 500. The final branch below mirrors the response literal of lines
193-201 and is unreachable. -/
def get_match_prediction (match_id : String) (r : HttpListResp) : HResp :=
  match PandaScoreAPI.get_matches r with
  | .error e => mkErr 500 ("Failed to get match prediction: " ++ e)
  | .ok ms =>
    if ms.isEmpty then
      mkErr 404 ("Match with ID " ++ match_id ++ " not found")
    else
      match pyGetAttr (.arr (ms.map JVal.obj)) "opponents" with
      | .error e => mkErr 500 ("Failed to get match prediction: " ++ e)
      | .ok ops =>
        mkOk (.obj
          [("match_id", .str match_id),
           ("teams",
             if 2 ≤ (asList ops).length then
               .arr [attrGetD (attrGetD ((asList ops).getD 0 .null) "opponent" (.obj [])) "name" .null,
                     attrGetD (attrGetD ((asList ops).getD 1 .null) "opponent" (.obj [])) "name" .null]
             else .arr []),
           ("prediction", .str "pending"),
           ("confidence", .float 0)])

/-- The POST /predictions/{match_id} handler (main.py lines 242-278). preds
stands for any prediction store; the handler never writes one (the save of
lines 263-264 is a stub). get_match raises on an upstream 4xx/5xx
(raise_for_status) and the blanket except of lines 273-278 answers 500, so
the 404 of lines 251-255 only fires on a falsy success body. A non-falsy
body answers 400 when its status value is the string finished (lines
257-261), else the success echo of lines 265-269. -/
def create_prediction (match_id : String) (r : HttpResp) (prediction : JVal)
    (preds : List JVal) : HResp × List JVal :=
  match PandaScoreAPI.get_match r with
  | .error e => (mkErr 500 ("Failed to create prediction: " ++ e), preds)
  | .ok body =>
    if pyFalsy body then
      (mkErr 404 ("Match with ID " ++ match_id ++ " not found"), preds)
    else
      match pyGetAttr body "status" with
      | .error e => (mkErr 500 ("Failed to create prediction: " ++ e), preds)
      | .ok st =>
        if isStrVal st "finished" then
          (mkErr 400 "Cannot make predictions for finished matches", preds)
        else
          (mkOk (.obj [("status", .str "success"),
                       ("message", .str "Prediction recorded"),
                       ("prediction", prediction)]), preds)

end Backend

/-! ## Helper lemmas -/

theorem updateFirst_length (p : α → Bool) (f : α → α) (l : List α) :
    (updateFirst p f l).length = l.length := by
  induction l with
  | nil => rfl
  | cons x xs ih =>
    simp only [updateFirst]
    split <;> simp [ih]

theorem getKey_setKey_ne (fs : PyDict) (k key : String) (v : JVal) (h : key ≠ k) :
    getKey (setKey fs k v) key = getKey fs key := by
  have h2 : k ≠ key := Ne.symm h
  induction fs with
  | nil => simp [setKey, getKey, h2]
  | cons x xs ih =>
    obtain ⟨a, b⟩ := x
    simp only [setKey]
    split
    · next hak =>
      subst hak
      simp [getKey, h2]
    · simp only [getKey, ih]

theorem getKey_setKey_self (fs : PyDict) (k : String) (v : JVal) :
    getKey (setKey fs k v) k = some v := by
  induction fs with
  | nil => simp [setKey, getKey]
  | cons x xs ih =>
    obtain ⟨a, b⟩ := x
    simp only [setKey]
    split
    · next hak => subst hak; simp [getKey]
    · next hak => simp [getKey, hak, ih]

theorem hasKey_setKey (fs : PyDict) (k key : String) (v : JVal)
    (h : hasKey fs key = true) : hasKey (setKey fs k v) key = true := by
  by_cases hk : key = k
  · subst hk
    rw [hasKey, getKey_setKey_self]
    rfl
  · rw [hasKey, getKey_setKey_ne fs k key v hk]
    exact h

theorem tourKey_overwrite (e : String) (d : TournamentFields) (hd : d.external_id = e)
    (r : TournamentRow) : tourKey e { r with fields := d } = true := by
  simp [tourKey, hd]

theorem updateFirst_overwrite_spec (e : String) (d : TournamentFields)
    (hd : d.external_id = e) (l : List TournamentRow)
    (hle : l.countP (tourKey e) ≤ 1) (hex : ∃ x ∈ l, tourKey e x) :
    ((updateFirst (tourKey e) (fun r => { r with fields := d }) l).filter
        (tourKey e)).map TournamentRow.fields = [d]
    ∧ (updateFirst (tourKey e) (fun r => { r with fields := d }) l).countP
        (tourKey e) = 1 := by
  induction l with
  | nil => simp at hex
  | cons x xs ih =>
    by_cases hx : tourKey e x = true
    · have hxs0 : xs.countP (tourKey e) = 0 := by
        rw [List.countP_cons_of_pos _ _ hx] at hle
        omega
      have hall : ∀ a ∈ xs, ¬ tourKey e a = true := List.countP_eq_zero.mp hxs0
      have hfil : xs.filter (tourKey e) = [] := List.filter_eq_nil_iff.mpr hall
      constructor
      · simp only [updateFirst, if_pos hx]
        rw [List.filter_cons_of_pos (tourKey_overwrite e d hd x), hfil]
        rfl
      · simp only [updateFirst, if_pos hx]
        rw [List.countP_cons_of_pos _ _ (tourKey_overwrite e d hd x), hxs0]
    · have hex2 : ∃ a ∈ xs, tourKey e a := by
        obtain ⟨a, ha, hpa⟩ := hex
        rcases List.mem_cons.mp ha with h | h
        · exact absurd (h ▸ hpa) hx
        · exact ⟨a, h, hpa⟩
      have hle2 : xs.countP (tourKey e) ≤ 1 := by
        rw [List.countP_cons_of_neg _ _ hx] at hle
        exact hle
      obtain ⟨ih1, ih2⟩ := ih hle2 hex2
      constructor
      · simp only [updateFirst, if_neg hx]
        rw [List.filter_cons_of_neg hx]
        exact ih1
      · simp only [updateFirst, if_neg hx]
        rw [List.countP_cons_of_neg _ _ hx]
        exact ih2

theorem upsertTournament_spec (db : List TournamentRow) (d : TournamentFields)
    (h : db.countP (tourKey d.external_id) ≤ 1) :
    ((upsertTournament db d).filter (tourKey d.external_id)).map
        TournamentRow.fields = [d]
    ∧ (upsertTournament db d).countP (tourKey d.external_id) = 1 := by
  unfold upsertTournament
  cases hfind : db.find? (tourKey d.external_id) with
  | none =>
    have hall : ∀ x ∈ db, ¬ tourKey d.external_id x := List.find?_eq_none.mp hfind
    have hfil : db.filter (tourKey d.external_id) = [] := List.filter_eq_nil_iff.mpr hall
    have hcnt : db.countP (tourKey d.external_id) = 0 := List.countP_eq_zero.mpr hall
    constructor
    · rw [List.filter_append, hfil]
      simp [tourKey]
    · rw [List.countP_append, hcnt]
      simp [tourKey]
  | some r =>
    have hex : ∃ x ∈ db, tourKey d.external_id x := by
      have hsome : (db.find? (tourKey d.external_id)).isSome := by
        rw [hfind]; rfl
      obtain ⟨x, hx, hpx⟩ := List.find?_isSome.mp hsome
      exact ⟨x, hx, hpx⟩
    exact updateFirst_overwrite_spec d.external_id d rfl db h hex

theorem upsertTournament_length_of_found (db : List TournamentRow) (d : TournamentFields)
    (h : 0 < db.countP (tourKey d.external_id)) :
    (upsertTournament db d).length = db.length := by
  unfold upsertTournament
  cases hfind : db.find? (tourKey d.external_id) with
  | none =>
    exfalso
    have hall : ∀ x ∈ db, ¬ tourKey d.external_id x := List.find?_eq_none.mp hfind
    have hcnt : db.countP (tourKey d.external_id) = 0 := List.countP_eq_zero.mpr hall
    omega
  | some r => exact updateFirst_length _ _ db

/-- C1: in the /tournaments reconciliation (main.py lines 104-119), each
fetched record is matched against the table by external_id — overwritten
field by field in place when a row exists, inserted as a new row otherwise.
Hence on a table satisfying the UNIQUE invariant on external_id (at most one
row per key), upserting two records carrying the same external_id leaves
exactly one row with that external_id, holding the values of the second
record, and the second upsert creates no new row. -/
theorem tournaments_upsert_same_external_id_twice (db : List TournamentRow)
    (d1 d2 : TournamentFields) (he : d1.external_id = d2.external_id)
    (hu : db.countP (tourKey d2.external_id) ≤ 1) :
    ((upsertTournament (upsertTournament db d1) d2).filter
        (tourKey d2.external_id)).map TournamentRow.fields = [d2]
    ∧ (upsertTournament (upsertTournament db d1) d2).length
        = (upsertTournament db d1).length := by
  have h1 := upsertTournament_spec db d1 (by rw [he]; exact hu)
  have h1b : (upsertTournament db d1).countP (tourKey d2.external_id) = 1 := by
    rw [← he]
    exact h1.2
  have h2 := upsertTournament_spec (upsertTournament db d1) d2 (le_of_eq h1b)
  refine ⟨h2.1, upsertTournament_length_of_found _ _ ?_⟩
  rw [h1b]
  norm_num

/-- Witness for C1 at a concrete input: an empty table, then two records
with external_id 10 and different values. -/
theorem tournaments_upsert_same_external_id_twice_witness :
    ((upsertTournament (upsertTournament []
        ⟨"10", "Spring Split", "LoL", none, none, "running", "1000"⟩)
        ⟨"10", "Spring Split Finals", "LoL", none, none, "finished", "2000"⟩).filter
        (tourKey "10")).map TournamentRow.fields
      = [⟨"10", "Spring Split Finals", "LoL", none, none, "finished", "2000"⟩]
    ∧ (upsertTournament (upsertTournament []
        ⟨"10", "Spring Split", "LoL", none, none, "running", "1000"⟩)
        ⟨"10", "Spring Split Finals", "LoL", none, none, "finished", "2000"⟩).length
      = (upsertTournament []
        ⟨"10", "Spring Split", "LoL", none, none, "running", "1000"⟩).length :=
  tournaments_upsert_same_external_id_twice []
    ⟨"10", "Spring Split", "LoL", none, none, "running", "1000"⟩
    ⟨"10", "Spring Split Finals", "LoL", none, none, "finished", "2000"⟩
    rfl (by decide)

/-- C2: evaluation of the /teams reconciliation (main.py lines 154-166) at
the failing input. Session.merge keys on the surrogate primary key, which
the constructed Team never sets, not on external_id — so a second call
carrying the same external_id stages a second fresh row instead of updating
the first; the commit violates the UNIQUE constraint on teams.external_id,
the batch is rolled back and answered 500, and the store keeps the values of
the first call (name Alpha), not one row holding the latest values (name
Beta) as claimed. -/
theorem teams_second_merge_same_external_id_fails :
    (Backend.get_teams (some "lol") true
        [⟨"1", "Alpha", "ALP", "", "League of Legends"⟩] []).1.status = 200
    ∧ (Backend.get_teams (some "lol") true
        [⟨"1", "Alpha", "ALP", "", "League of Legends"⟩] []).2
      = [⟨0, ⟨"1", "Alpha", "ALP", "", "League of Legends"⟩, 1500⟩]
    ∧ (Backend.get_teams (some "lol") true
        [⟨"1", "Beta", "BET", "", "League of Legends"⟩]
        [⟨0, ⟨"1", "Alpha", "ALP", "", "League of Legends"⟩, 1500⟩]).1.status = 500
    ∧ (Backend.get_teams (some "lol") true
        [⟨"1", "Beta", "BET", "", "League of Legends"⟩]
        [⟨0, ⟨"1", "Alpha", "ALP", "", "League of Legends"⟩, 1500⟩]).2
      = [⟨0, ⟨"1", "Alpha", "ALP", "", "League of Legends"⟩, 1500⟩]
    ∧ ((Backend.get_teams (some "lol") true
        [⟨"1", "Beta", "BET", "", "League of Legends"⟩]
        [⟨0, ⟨"1", "Alpha", "ALP", "", "League of Legends"⟩, 1500⟩]).2.map
          (fun r => r.fields.name)) = ["Alpha"] :=
  ⟨rfl, rfl, rfl, rfl, rfl⟩

/-- C5: reconciliation is atomic per fetch batch. For a valid game argument,
a successful commit persists exactly the whole batch (every upsert of the
fetch folded into the table at once); a failed tournaments commit leaves the
committed table unchanged and answers the 500 of main.py lines 127-130; the
teams table always ends either fully updated or untouched; and a failed
teams commit leaves it untouched with a 500. Partial persistence of a batch
never occurs. -/
theorem reconcile_batch_atomic (game : Option String) (recs : List TournamentFields)
    (trecs : List TeamFields) (db : List TournamentRow) (tdb : List TeamRow)
    (hg : Backend.gameInvalid game = false) :
    Backend.get_tournaments game true recs db
      = (mkOk .null, recs.foldl upsertTournament db)
    ∧ Backend.get_tournaments game false recs db
      = (mkErr 500 "Failed to save tournaments to database", db)
    ∧ ((Backend.get_teams game true trecs tdb).2 = trecs.foldl mergeTeam tdb
        ∨ (Backend.get_teams game true trecs tdb).2 = tdb)
    ∧ Backend.get_teams game false trecs tdb
      = (mkErr 500 "Failed to fetch teams: UNIQUE constraint failed: teams.external_id",
         tdb) := by
  refine ⟨?_, ?_, ?_, ?_⟩
  · simp [Backend.get_tournaments, hg]
  · simp [Backend.get_tournaments, hg]
  · by_cases hd : allDistinct ((trecs.foldl mergeTeam tdb).map
        (fun r => r.fields.external_id)) = true
    · left
      simp [Backend.get_teams, hg, hd]
    · right
      simp [Backend.get_teams, hg, hd]
  · simp [Backend.get_teams, hg]

/-- Witness for C5 at a concrete input: one tournament record and one team
record on empty tables, with no game filter. -/
theorem reconcile_batch_atomic_witness :
    Backend.get_tournaments none true
        [⟨"7", "Summer Cup", "VAL", none, none, "upcoming", ""⟩] []
      = (mkOk .null,
         [⟨"7", "Summer Cup", "VAL", none, none, "upcoming", ""⟩].foldl upsertTournament [])
    ∧ Backend.get_tournaments none false
        [⟨"7", "Summer Cup", "VAL", none, none, "upcoming", ""⟩] []
      = (mkErr 500 "Failed to save tournaments to database", [])
    ∧ ((Backend.get_teams none true [⟨"9", "Gamma", "GMA", "", "VAL"⟩] []).2
          = [⟨"9", "Gamma", "GMA", "", "VAL"⟩].foldl mergeTeam []
        ∨ (Backend.get_teams none true [⟨"9", "Gamma", "GMA", "", "VAL"⟩] []).2 = [])
    ∧ Backend.get_teams none false [⟨"9", "Gamma", "GMA", "", "VAL"⟩] []
      = (mkErr 500 "Failed to fetch teams: UNIQUE constraint failed: teams.external_id",
         []) :=
  reconcile_batch_atomic none
    [⟨"7", "Summer Cup", "VAL", none, none, "upcoming", ""⟩]
    [⟨"9", "Gamma", "GMA", "", "VAL"⟩] [] [] rfl

/-- C6 counterexample: the claim says BOTH list endpoints answer a client
error (4xx) for an unsupported game, but /teams never validates the
argument — the ValueError raised inside the client is swallowed by the
blanket except of main.py lines 169-174 and surfaces as a 500 server
error. -/
theorem teams_unsupported_game_answers_500 :
    (Backend.get_teams (some "dota2") true [] []).1.status = 500
    ∧ ¬(400 ≤ (Backend.get_teams (some "dota2") true [] []).1.status
        ∧ (Backend.get_teams (some "dota2") true [] []).1.status < 500) := by
  refine ⟨rfl, ?_⟩
  intro h
  have h2 : (500 : Nat) < 500 := h.2
  omega

/-- C6 amended: for every truthy unsupported game value, /tournaments
answers 400 with a message listing exactly the supported games (main.py
lines 76-80), while /teams surfaces the same condition as a 500 server
error whose detail embeds that message (its handler never validates game;
the ValueError of pandascore.py lines 101-102 hits the blanket except of
main.py lines 169-174); the shared message lists exactly lol and
valorant. -/
theorem unsupported_game_error_replies (g : String) (ok : Bool)
    (recs : List TournamentFields) (db : List TournamentRow)
    (trecs : List TeamFields) (tdb : List TeamRow)
    (hg1 : ¬ g = "") (hg2 : PandaScoreAPI.supportedSlug g = none) :
    Backend.get_tournaments (some g) ok recs db
      = (mkErr 400 PandaScoreAPI.unsupportedGameMsg, db)
    ∧ Backend.get_teams (some g) ok trecs tdb
      = (mkErr 500 ("Failed to fetch teams: " ++ PandaScoreAPI.unsupportedGameMsg), tdb)
    ∧ PandaScoreAPI.unsupportedGameMsg
      = "Unsupported game. Supported games are: lol, valorant" := by
  have hinv : Backend.gameInvalid (some g) = true := by
    simp [Backend.gameInvalid, hg1, hg2]
  refine ⟨?_, ?_, rfl⟩
  · simp [Backend.get_tournaments, hinv]
  · simp [Backend.get_teams, hinv]

/-- Witness for C6 at a concrete input: game dota2 on both endpoints. -/
theorem unsupported_game_error_replies_witness :
    Backend.get_tournaments (some "dota2") true [] []
      = (mkErr 400 PandaScoreAPI.unsupportedGameMsg, [])
    ∧ Backend.get_teams (some "dota2") true [] []
      = (mkErr 500 ("Failed to fetch teams: " ++ PandaScoreAPI.unsupportedGameMsg), [])
    ∧ PandaScoreAPI.unsupportedGameMsg
      = "Unsupported game. Supported games are: lol, valorant" :=
  unsupported_game_error_replies "dota2" true [] [] [] [] (by decide) rfl

/-- C7: the prediction write (main.py lines 242-269) for an existing match
(an upstream 200 whose body is a non-empty match dict): when the status
value of the match is the string finished, the handler answers the client
error 400 of lines 257-261; for any other status value it answers the
success echo of lines 265-269, carrying the submitted prediction payload as
recorded; in both cases the prediction store is left untouched (nothing is
persisted). -/
theorem create_prediction_contract (match_id : String) (o : PyDict) (pred : JVal)
    (preds : List JVal) (hne : o ≠ []) :
    (isStrVal (dictGetD o "status" .null) "finished" = true →
      Backend.create_prediction match_id ⟨200, .obj o⟩ pred preds
        = (mkErr 400 "Cannot make predictions for finished matches", preds))
    ∧ (isStrVal (dictGetD o "status" .null) "finished" = false →
      Backend.create_prediction match_id ⟨200, .obj o⟩ pred preds
        = (mkOk (.obj [("status", .str "success"),
                       ("message", .str "Prediction recorded"),
                       ("prediction", pred)]), preds)) := by
  have hoe : o.isEmpty = false := List.isEmpty_eq_false.mpr hne
  constructor
  · intro hf
    simp [Backend.create_prediction, PandaScoreAPI.get_match,
      PandaScoreAPI.raiseForStatus, pyFalsy, pyGetAttr, attrGetD, hoe, hf]
  · intro hf
    simp [Backend.create_prediction, PandaScoreAPI.get_match,
      PandaScoreAPI.raiseForStatus, pyFalsy, pyGetAttr, attrGetD, hoe, hf]

/-- Witness for C7 at a concrete input: a running match. -/
theorem create_prediction_contract_witness :
    (isStrVal (dictGetD [("status", JVal.str "running")] "status" .null) "finished" = true →
      Backend.create_prediction "12" ⟨200, .obj [("status", JVal.str "running")]⟩
          (.obj [("winner", JVal.str "T1")]) []
        = (mkErr 400 "Cannot make predictions for finished matches", []))
    ∧ (isStrVal (dictGetD [("status", JVal.str "running")] "status" .null) "finished" = false →
      Backend.create_prediction "12" ⟨200, .obj [("status", JVal.str "running")]⟩
          (.obj [("winner", JVal.str "T1")]) []
        = (mkOk (.obj [("status", .str "success"),
                       ("message", .str "Prediction recorded"),
                       ("prediction", .obj [("winner", JVal.str "T1")])]), [])) :=
  create_prediction_contract "12" [("status", JVal.str "running")]
    (.obj [("winner", JVal.str "T1")]) [] (List.cons_ne_nil _ _)

/-- C8: evaluation of the prediction read (main.py lines 176-209) at the
failing input. Line 183 calls the list endpoint, so the found-match value is
a Python list; building the placeholder response then evaluates
match_data.get on that list, which raises AttributeError, and the handler
answers 500 — the placeholder (status pending, confidence 0.0) is never
returned for a found match. An empty result still answers 404. -/
theorem match_prediction_read_crashes_on_found_match :
    Backend.get_match_prediction "7"
        ⟨200, [[("id", JVal.num 7), ("status", JVal.str "running")]]⟩
      = mkErr 500
          "Failed to get match prediction: AttributeError: list object has no attribute get"
    ∧ Backend.get_match_prediction "7" ⟨200, []⟩
      = mkErr 404 "Match with ID 7 not found" :=
  ⟨rfl, rfl⟩

/-- C9: evaluation of both prediction endpoints at a match id that does not
exist upstream. The write path calls get_match, whose raise_for_status turns
the upstream 404 into an HTTPError; the blanket except of main.py lines
273-278 answers 500, not the 404 the claim requires (the explicit 404 branch
of lines 251-255 is unreachable for an upstream 404). The read path queries
the list endpoint, whose empty result for an unknown id does answer 404. -/
theorem create_prediction_missing_match_answers_500 :
    (Backend.create_prediction "42" ⟨404, JVal.null⟩ (JVal.obj []) []).1.status = 500
    ∧ (Backend.create_prediction "42" ⟨404, JVal.null⟩ (JVal.obj []) []).1.status ≠ 404
    ∧ (Backend.get_match_prediction "42" ⟨200, []⟩).status = 404 :=
  ⟨rfl, by decide, rfl⟩

theorem getKey_addLeagueInfo (t e : PyDict) (key : String) (h : key ≠ "league_info") :
    getKey (PandaScoreAPI.addLeagueInfo t e) key = getKey e key := by
  unfold PandaScoreAPI.addLeagueInfo
  split
  · exact getKey_setKey_ne e "league_info" key _ h
  · rfl

theorem getKey_addSeriesInfo (t e : PyDict) (key : String) (h : key ≠ "series_info") :
    getKey (PandaScoreAPI.addSeriesInfo t e) key = getKey e key := by
  unfold PandaScoreAPI.addSeriesInfo
  split
  · exact getKey_setKey_ne e "series_info" key _ h
  · rfl

theorem getKey_addGameDetails (game : Option String) (t e : PyDict) (key : String)
    (h : key ≠ "game_details") :
    getKey (PandaScoreAPI.addGameDetails game t e) key = getKey e key := by
  unfold PandaScoreAPI.addGameDetails
  split
  · exact getKey_setKey_ne e "game_details" key _ h
  · split
    · exact getKey_setKey_ne e "game_details" key _ h
    · rfl

theorem getKey_addRoster (t e : PyDict) (key : String) (h : key ≠ "roster") :
    getKey (PandaScoreAPI.addRoster t e) key = getKey e key := by
  unfold PandaScoreAPI.addRoster
  split
  · exact getKey_setKey_ne e "roster" key _ h
  · rfl

theorem getKey_addRecentPerformance (game : Option String)
    (rm : Option (List PyDict)) (t e : PyDict) (key : String)
    (h : key ≠ "recent_performance") :
    getKey (PandaScoreAPI.addRecentPerformance game rm t e) key = getKey e key := by
  unfold PandaScoreAPI.addRecentPerformance
  split
  · cases rm with
    | none => rfl
    | some ms => exact getKey_setKey_ne e "recent_performance" key _ h
  · rfl

theorem getKey_enhanceTournament_ne (game : Option String) (t : PyDict) (key : String)
    (h1 : key ≠ "league_info") (h2 : key ≠ "series_info") (h3 : key ≠ "game_details") :
    getKey (PandaScoreAPI.enhanceTournament game t) key = getKey t key := by
  unfold PandaScoreAPI.enhanceTournament
  rw [getKey_addGameDetails _ _ _ _ h3, getKey_addSeriesInfo _ _ _ h2,
    getKey_addLeagueInfo _ _ _ h1]

theorem getKey_enhanceTeam_ne (game : Option String) (rm : Option (List PyDict))
    (t : PyDict) (key : String)
    (h1 : key ≠ "roster") (h2 : key ≠ "recent_performance") :
    getKey (PandaScoreAPI.enhanceTeam game rm t) key = getKey t key := by
  unfold PandaScoreAPI.enhanceTeam
  rw [getKey_addRecentPerformance _ _ _ _ _ h2, getKey_addRoster _ _ _ h1]

theorem slugOf_enhanceTournament (game : Option String) (t : PyDict) :
    PandaScoreAPI.slugOf (PandaScoreAPI.enhanceTournament game t)
      = PandaScoreAPI.slugOf t := by
  unfold PandaScoreAPI.slugOf
  rw [getKey_enhanceTournament_ne game t "videogame" (by decide) (by decide) (by decide)]

/-- C3: every record returned by the tournament fetch under a supported game
filter carries the expected videogame slug for that game — mismatching
records are discarded by the post filter of pandascore.py lines 53-62, and
the enrichment of lines 64-93 never touches the videogame key. -/
theorem tournaments_filter_slug_invariant (g slug : String) (raw : List PyDict)
    (t : PyDict) (hs : PandaScoreAPI.supportedSlug g = some slug)
    (ht : t ∈ PandaScoreAPI.get_tournaments (some g) raw) :
    PandaScoreAPI.slugOf t = some slug := by
  have hg : ¬ g = "" := by
    intro h0
    rw [h0] at hs
    exact Option.noConfusion hs
  have hgb : (g == "") = false := beq_eq_false_iff_ne.mpr hg
  induction raw with
  | nil => simp [PandaScoreAPI.get_tournaments] at ht
  | cons x xs ih =>
    simp only [PandaScoreAPI.get_tournaments] at ht
    by_cases hskip : PandaScoreAPI.skipRecord (some g) x = true
    · rw [if_pos hskip] at ht
      exact ih ht
    · rw [if_neg hskip] at ht
      rcases List.mem_cons.mp ht with h | h
      · subst h
        rw [slugOf_enhanceTournament]
        have hsk : PandaScoreAPI.skipRecord (some g) x = false := by
          revert hskip
          cases PandaScoreAPI.skipRecord (some g) x <;> simp
        simp only [PandaScoreAPI.skipRecord, hgb, hs, Bool.false_eq_true, if_false,
          Bool.not_eq_false', beq_iff_eq] at hsk
        exact hsk
      · exact ih h

/-- Witness for C3 at a concrete input: game lol and a one-record upstream
list whose slug is league-of-legends. -/
theorem tournaments_filter_slug_invariant_witness :
    PandaScoreAPI.slugOf (PandaScoreAPI.enhanceTournament (some "lol")
        [("videogame", JVal.obj [("slug", JVal.str "league-of-legends")])])
      = some "league-of-legends" :=
  tournaments_filter_slug_invariant "lol" "league-of-legends"
    [[("videogame", JVal.obj [("slug", JVal.str "league-of-legends")])]]
    (PandaScoreAPI.enhanceTournament (some "lol")
      [("videogame", JVal.obj [("slug", JVal.str "league-of-legends")])])
    rfl
    (List.mem_singleton.mpr rfl)

/-- C4: the win-rate computation of pandascore.py lines 235-242 answers 0.0
for an empty match list, and for a non-empty list of N matches of which W
carry winner_id equal to the given team id it answers exactly W / N times
100 (arithmetic modelled exactly over the rationals). -/
theorem calculate_win_rate_formula (ms : List PyDict) (tid : JVal) (N W : Nat)
    (hne : ms ≠ []) (hN : ms.length = N)
    (hW : ms.countP (fun m => pyEq (dictGetD m "winner_id" .null) tid) = W) :
    PandaScoreAPI.calculate_win_rate ms tid = (W : Rat) / (N : Rat) * 100
    ∧ PandaScoreAPI.calculate_win_rate [] tid = 0 := by
  constructor
  · unfold PandaScoreAPI.calculate_win_rate
    rw [if_neg (by simp [hne]), hW, hN]
  · rfl

/-- Witness for C4 at a concrete input: three matches, one won by team 3. -/
theorem calculate_win_rate_formula_witness :
    PandaScoreAPI.calculate_win_rate
        [[("winner_id", JVal.num 3)], [("winner_id", JVal.num 4)], [("id", JVal.num 9)]]
        (JVal.num 3)
      = ((1 : Nat) : Rat) / ((3 : Nat) : Rat) * 100
    ∧ PandaScoreAPI.calculate_win_rate [] (JVal.num 3) = 0 :=
  calculate_win_rate_formula
    [[("winner_id", JVal.num 3)], [("winner_id", JVal.num 4)], [("id", JVal.num 9)]]
    (JVal.num 3) 3 1 (List.cons_ne_nil _ _) rfl
    (by
      have e1 : pyEq (JVal.num 3) (JVal.num 3) = true := by
        rw [pyEq.eq_def]; rfl
      have e2 : pyEq (JVal.num 4) (JVal.num 3) = false := by
        rw [pyEq.eq_def]; rfl
      have e3 : pyEq JVal.null (JVal.num 3) = false := by
        rw [pyEq.eq_def]
      simp [List.countP_cons, dictGetD, getKey, e1, e2, e3])

theorem hasKey_addLeagueInfo (t e : PyDict) (key : String)
    (h : hasKey e key = true) : hasKey (PandaScoreAPI.addLeagueInfo t e) key = true := by
  unfold PandaScoreAPI.addLeagueInfo
  split
  · exact hasKey_setKey e "league_info" key _ h
  · exact h

theorem hasKey_addSeriesInfo (t e : PyDict) (key : String)
    (h : hasKey e key = true) : hasKey (PandaScoreAPI.addSeriesInfo t e) key = true := by
  unfold PandaScoreAPI.addSeriesInfo
  split
  · exact hasKey_setKey e "series_info" key _ h
  · exact h

theorem hasKey_addGameDetails (game : Option String) (t e : PyDict) (key : String)
    (h : hasKey e key = true) :
    hasKey (PandaScoreAPI.addGameDetails game t e) key = true := by
  unfold PandaScoreAPI.addGameDetails
  split
  · exact hasKey_setKey e "game_details" key _ h
  · split
    · exact hasKey_setKey e "game_details" key _ h
    · exact h

theorem hasKey_addRoster (t e : PyDict) (key : String)
    (h : hasKey e key = true) : hasKey (PandaScoreAPI.addRoster t e) key = true := by
  unfold PandaScoreAPI.addRoster
  split
  · exact hasKey_setKey e "roster" key _ h
  · exact h

theorem hasKey_addRecentPerformance (game : Option String) (rm : Option (List PyDict))
    (t e : PyDict) (key : String) (h : hasKey e key = true) :
    hasKey (PandaScoreAPI.addRecentPerformance game rm t e) key = true := by
  unfold PandaScoreAPI.addRecentPerformance
  split
  · cases rm with
    | none => exact h
    | some ms => exact hasKey_setKey e "recent_performance" key _ h
  · exact h

/-- C10 counterexample: the claim says the enriched record keeps every key
of the original with its value unchanged; but a raw record that already
carries a league_info key has that value overwritten by the enrichment. -/
theorem enrichment_overwrites_existing_league_info_key :
    getKey [("league_info", JVal.num 1), ("league", JVal.obj [])] "league_info"
      = some (JVal.num 1)
    ∧ getKey (PandaScoreAPI.enhanceTournament none
        [("league_info", JVal.num 1), ("league", JVal.obj [])]) "league_info"
      = some (PandaScoreAPI.leagueInfo (JVal.obj []))
    ∧ getKey (PandaScoreAPI.enhanceTournament none
        [("league_info", JVal.num 1), ("league", JVal.obj [])]) "league_info"
      ≠ some (JVal.num 1) := by
  refine ⟨rfl, rfl, ?_⟩
  intro h
  exact JVal.noConfusion (Option.some.inj h)

/-- C10 amended: enrichment is key preserving away from the enrichment keys.
Every key of a raw record other than league_info, series_info and
game_details keeps its original value in the enriched tournament record, and
every key other than roster and recent_performance keeps its original value
in the enriched team record (an enrichment key already present in the raw
record may be overwritten); no key of the original is ever removed, so the
enriched record differs from the original only at the added or overwritten
enrichment keys. -/
theorem enrichment_preserves_other_keys (game : Option String)
    (rm : Option (List PyDict)) (t : PyDict) (key : String)
    (h1 : key ∉ (["league_info", "series_info", "game_details"] : List String))
    (h2 : key ∉ (["roster", "recent_performance"] : List String)) :
    getKey (PandaScoreAPI.enhanceTournament game t) key = getKey t key
    ∧ getKey (PandaScoreAPI.enhanceTeam game rm t) key = getKey t key
    ∧ (∀ k2, hasKey t k2 = true →
        hasKey (PandaScoreAPI.enhanceTournament game t) k2 = true)
    ∧ (∀ k2, hasKey t k2 = true →
        hasKey (PandaScoreAPI.enhanceTeam game rm t) k2 = true) := by
  simp only [List.mem_cons, List.not_mem_nil, or_false, not_or] at h1 h2
  refine ⟨?_, ?_, ?_, ?_⟩
  · exact getKey_enhanceTournament_ne game t key h1.1 h1.2.1 h1.2.2
  · exact getKey_enhanceTeam_ne game rm t key h2.1 h2.2
  · intro k2 hk
    exact hasKey_addGameDetails game t _ k2
      (hasKey_addSeriesInfo t _ k2 (hasKey_addLeagueInfo t t k2 hk))
  · intro k2 hk
    exact hasKey_addRecentPerformance game rm t _ k2 (hasKey_addRoster t t k2 hk)

/-- Witness for C10 at a concrete input: a lol team record with id, name and
players, checked at key name. -/
theorem enrichment_preserves_other_keys_witness :
    getKey (PandaScoreAPI.enhanceTournament (some "lol")
        [("id", JVal.num 1), ("name", JVal.str "T1"), ("players", JVal.arr [])]) "name"
      = getKey [("id", JVal.num 1), ("name", JVal.str "T1"), ("players", JVal.arr [])] "name"
    ∧ getKey (PandaScoreAPI.enhanceTeam (some "lol") (some [])
        [("id", JVal.num 1), ("name", JVal.str "T1"), ("players", JVal.arr [])]) "name"
      = getKey [("id", JVal.num 1), ("name", JVal.str "T1"), ("players", JVal.arr [])] "name"
    ∧ (∀ k2, hasKey [("id", JVal.num 1), ("name", JVal.str "T1"),
          ("players", JVal.arr [])] k2 = true →
        hasKey (PandaScoreAPI.enhanceTournament (some "lol")
          [("id", JVal.num 1), ("name", JVal.str "T1"), ("players", JVal.arr [])]) k2 = true)
    ∧ (∀ k2, hasKey [("id", JVal.num 1), ("name", JVal.str "T1"),
          ("players", JVal.arr [])] k2 = true →
        hasKey (PandaScoreAPI.enhanceTeam (some "lol") (some [])
          [("id", JVal.num 1), ("name", JVal.str "T1"), ("players", JVal.arr [])]) k2 = true) :=
  enrichment_preserves_other_keys (some "lol") (some [])
    [("id", JVal.num 1), ("name", JVal.str "T1"), ("players", JVal.arr [])] "name"
    (by decide) (by decide)
